import Mathlib

/-!
Verification of the drones-crdt measurement harness.

This file gives a shallow embedding, in Lean 4, of the algorithmic core of
the repository (the convergence-measurement logic of
`src/simulator/drone_utils.py` and the traffic-classification logic of
`src/simulator/traffic_analyzer.py`), and proves or refutes the frozen
claims about it.

Modelling conventions:
* Python `float` arithmetic: wherever a claim constrains only float-exact
  values (0.0, 1.0, 100.0, small halves), the operations are modelled by
  exact rational arithmetic (`ℚ`), which is bit-for-bit faithful there.
  Where rounding matters — the convergence mean of C1 — the computation is
  additionally modelled by `convergence_index_fp`, an executable IEEE-754
  binary64 model (53-bit round-to-nearest, ties-to-even on every operation)
  whose result is the double the program returns.
* Python `set` → `Finset String`; Python `dict` bucket maps with a fixed
  key set → functions out of a finite inductive key type.
* Fallible operations (HTTP fetch + JSON parse) are modelled by an input
  type that distinguishes the failure cases the code distinguishes.
-/

namespace DronesCRDT

/-! ## Convergence engine (`src/simulator/drone_utils.py`, lines 206-229) -/

/-- `jaccard_index` (drone_utils.py lines 206-212):
`if not set1 and not set2: return 1.0` then `len(set1 & set2) / len(set1 | set2)`. -/
def jaccard_index (set1 set2 : Finset String) : ℚ :=
  if set1 = ∅ ∧ set2 = ∅ then 1
  else ((set1 ∩ set2).card : ℚ) / ((set1 ∪ set2).card : ℚ)

/-- The list of pairwise Jaccard scores built by the nested loops of
`convergence_index` (drone_utils.py lines 223-227):
`for i in range(n): for j in range(i+1, n): scores.append(...)`.
`List.range' (i+1) (n-(i+1))` is exactly Python's `range(i+1, n)`. -/
def pairScores (replicas : List (Finset String)) : List ℚ :=
  (List.range replicas.length).flatMap fun i =>
    (List.range' (i + 1) (replicas.length - (i + 1))).map fun j =>
      jaccard_index (replicas.getD i ∅) (replicas.getD j ∅)

/-- `convergence_index` (drone_utils.py lines 215-228) in exact (real)
arithmetic: `if len(replicas) < 2: return 1.0` then
`sum(scores) / len(scores)`. This is the ideal value the program
approximates; the program itself computes with IEEE-754 doubles, modelled
below by `convergence_index_fp`. -/
def convergence_index (replicas : List (Finset String)) : ℚ :=
  if replicas.length < 2 then 1
  else (pairScores replicas).sum / ((pairScores replicas).length : ℚ)

/-! ### IEEE-754 binary64 model

Python floats are IEEE-754 binary64 values; `+` and `/` return the exact
result rounded to 53-bit precision, to nearest, ties to even. The model
below implements exactly that rounding on non-negative values, with an
unbounded exponent range (no overflow/underflow/subnormal clamping; every
value arising in the program's convergence computation — Jaccard scores
in [0,1], their partial sums, and the final mean — lies well inside the
normal range, where the model and binary64 agree bit for bit). -/

/-- A non-negative dyadic rational `num / 2 ^ shift`, the exact value of a
binary64 floating-point number. -/
structure Dyad where
  num : Nat
  shift : Int
deriving DecidableEq

/-- The exact rational value of a `Dyad`. -/
def toRat (x : Dyad) : ℚ :=
  (x.num : ℚ) / 2 ^ x.shift

/-- Round `n / d` (with `d > 0`) to the nearest integer, ties to even. -/
def rneNat (n d : Nat) : Nat :=
  let q := n / d
  let r := n % d
  if 2 * r < d then q
  else if d < 2 * r then q + 1
  else if q % 2 = 0 then q else q + 1

/-- Fuel-driven `⌊log₂⌋`; the fuel (instantiated with the argument, an
upper bound on the recursion depth) only makes the recursion structural. -/
def log2fuel : Nat → Nat → Nat
  | 0, _ => 0
  | fuel + 1, n => if n ≤ 1 then 0 else log2fuel fuel (n / 2) + 1

/-- `⌊log₂ n⌋` for `n ≥ 1`. -/
def natLog2 (n : Nat) : Nat :=
  log2fuel n n

/-- The binary64 rounding (to nearest, ties to even, 53-bit significand,
unbounded exponent) of the non-negative rational `n / d`: with
`e = ⌊log₂ (n/d)⌋`, the significand is `n/d · 2^(52-e)` rounded half to
even, and the result is that integer divided by `2^(52-e)`. `n = 0` (or
the never-exercised `d = 0` guard) gives zero. -/
def flRatNat (n d : Nat) : Dyad :=
  if n = 0 ∨ d = 0 then ⟨0, 0⟩
  else
    let a := natLog2 n
    let b := natLog2 d
    let e : Int := if d * 2 ^ a ≤ n * 2 ^ b then (a : Int) - b else (a : Int) - b - 1
    let s : Int := 52 - e
    ⟨rneNat (n * 2 ^ s.toNat) (d * 2 ^ (-s).toNat), s⟩

/-- Binary64 rounding of an exact dyadic value `num / 2 ^ s`. -/
def flOfDyadic (num : Nat) (s : Int) : Dyad :=
  if 0 ≤ s then flRatNat num (2 ^ s.toNat)
  else flRatNat (num * 2 ^ (-s).toNat) 1

/-- IEEE binary64 addition of two non-negative values: the exact sum,
rounded once. -/
def fpAdd (x y : Dyad) : Dyad :=
  let s := max x.shift y.shift
  flOfDyadic (x.num * 2 ^ (s - x.shift).toNat + y.num * 2 ^ (s - y.shift).toNat) s

/-- IEEE binary64 division of a non-negative value by a positive integer
(Python `float / int`): the exact quotient, rounded once. -/
def fpDivNat (x : Dyad) (k : Nat) : Dyad :=
  if 0 ≤ x.shift then flRatNat x.num (2 ^ x.shift.toNat * k)
  else flRatNat (x.num * 2 ^ (-x.shift).toNat) k

/-- `jaccard_index` as the program computes it: the float literal `1.0`
on two empties, otherwise the correctly rounded double `len(set1 & set2)
/ len(set1 | set2)` (one `int / int` division, rounded once). -/
def jaccard_fp (set1 set2 : Finset String) : Dyad :=
  if set1 = ∅ ∧ set2 = ∅ then ⟨1, 0⟩
  else flRatNat (set1 ∩ set2).card (set1 ∪ set2).card

/-- The `scores` list of `convergence_index` as the program computes it
(same nested loops as `pairScores`, with double-valued scores). -/
def pairScoresFP (replicas : List (Finset String)) : List Dyad :=
  (List.range replicas.length).flatMap fun i =>
    (List.range' (i + 1) (replicas.length - (i + 1))).map fun j =>
      jaccard_fp (replicas.getD i ∅) (replicas.getD j ∅)

/-- `convergence_index` as the program computes it with IEEE doubles:
`sum(scores)` is Python's left fold of float addition starting from the
integer 0 (exact on the first step), and the final `/ len(scores)` is one
more correctly rounded division. -/
def convergence_index_fp (replicas : List (Finset String)) : Dyad :=
  if replicas.length < 2 then ⟨1, 0⟩
  else fpDivNat ((pairScoresFP replicas).foldl fpAdd ⟨0, 0⟩)
    (pairScoresFP replicas).length

/-! ## State fetching (`src/simulator/drone_utils.py`, lines 121-204) -/

/-- A grid cell as reported in a delta (`{cell: {x, y}}`). -/
structure Cell where
  x : Int
  y : Int
deriving DecidableEq

/-- The metadata of a reported fire (`{detected_by, timestamp, confidence}`). -/
structure FireMeta where
  detected_by : String
  timestamp : Int
  confidence : ℚ
deriving DecidableEq

/-- One element of the `all_deltas` array (`{cell: ..., meta: ...}`). -/
structure FireWithMeta where
  cell : Cell
  meta : FireMeta
deriving DecidableEq

/-- The cell key used for set comparison (drone_utils.py line 174):
`f"{cell['x']},{cell['y']}"`. -/
def cellKey (c : Cell) : String :=
  toString c.x ++ "," ++ toString c.y

/-- The outcomes of `curl` + `json.loads` + `data["all_deltas"]` that
`fetch_state` (drone_utils.py lines 121-151) distinguishes:
a JSON parse error (`json.JSONDecodeError`), a structural error
(`KeyError` / `IndexError`), or a successfully parsed `all_deltas` array. -/
inductive StateResponse where
  | parseError : StateResponse
  | missingKey : StateResponse
  | ok : List FireWithMeta → StateResponse
deriving DecidableEq

/-- `fetch_state` (drone_utils.py lines 121-151): returns
`(timestamp_ms, confidence, all_deltas)`; both error handlers and the
`if not all_deltas` branch return `(None, None, [])`; otherwise the
timestamp and confidence of the first delta's metadata are returned. -/
def fetch_state : StateResponse → Option Int × Option ℚ × List FireWithMeta
  | .parseError => (none, none, [])
  | .missingKey => (none, none, [])
  | .ok [] => (none, none, [])
  | .ok (f :: fs) => (some f.meta.timestamp, some f.meta.confidence, f :: fs)

/-- The per-drone body of the sampling loop of `fetch_states`
(drone_utils.py lines 163-195): the drone's delta set starts empty; if
`timestamp_ms is None` the loop `continue`s (no CSV row is written and the
set stays empty); otherwise the cell keys of `all_deltas` are added to the
set and a CSV row is written. Returns (set for this round, whether a CSV
row was written). -/
def processNode (resp : StateResponse) : Finset String × Bool :=
  match fetch_state resp with
  | (none, _, _) => (∅, false)
  | (some _, _, all_deltas) => (((all_deltas.map fun f => cellKey f.cell).toFinset), true)

/-- The list `drone_delta_sets` built by one round of `fetch_states`
(drone_utils.py lines 163-175): one entry per drone, rebuilt from scratch
(`[set() for _ in drones]`) from this round's responses only. -/
def roundDeltaSets (resps : List StateResponse) : List (Finset String) :=
  resps.map fun resp => (processNode resp).1

/-- The convergence score computed at the end of one round of
`fetch_states` (drone_utils.py line 199). -/
def roundScore (resps : List StateResponse) : ℚ :=
  convergence_index (roundDeltaSets resps)

/-! ## Traffic classifier (`src/simulator/traffic_analyzer.py`) -/

/-- Characters matched by Python's `\s` regex class on ASCII text
(`[ \t\n\r\f\v]`). -/
def isPythonSpace (c : Char) : Bool :=
  c = ' ' || c = '\t' || c = '\n' || c = '\r' || c = '\x0b' || c = '\x0c'

/-- Python `str.strip()`: remove leading and trailing whitespace. -/
def stripChars (l : List Char) : List Char :=
  ((l.dropWhile isPythonSpace).reverse.dropWhile isPythonSpace).reverse

/-- The literal part of the regex in `retrieve_message_type`
(traffic_analyzer.py line 456): `X-Message-Type:`. -/
def xmtLit : List Char :=
  ['X', '-', 'M', 'e', 's', 's', 'a', 'g', 'e', '-', 'T', 'y', 'p', 'e', ':']

/-- `dropLit pat l = some rest` iff `l` starts with `pat`, with `rest`
the remainder of `l` after `pat`. -/
def dropLit : List Char → List Char → Option (List Char)
  | [], rest => some rest
  | _ :: _, [] => none
  | p :: ps, c :: cs => if p = c then dropLit ps cs else none

/-- `listContains pat l` iff `pat` occurs as a contiguous run inside `l`
(Python's `pat in l` on strings). -/
def listContains (pat : List Char) : List Char → Bool
  | [] => (dropLit pat []).isSome
  | c :: cs => (dropLit pat (c :: cs)).isSome || listContains pat cs

/-- Matching the tail `\s*([^\\]+)` of the regex of `retrieve_message_type`
at a fixed position, `rest` being the text right after the literal
`X-Message-Type:`. Greedy `\s*` with backtracking:
* if after the maximal whitespace run there is a character other than a
  backslash, the group is everything from there up to the first backslash
  (then `.strip()`ed by the caller, folded in here);
* if that character is a backslash (or the whitespace run reaches the end
  of the text), `\s*` backs off one whitespace character when it can, the
  group becomes that single whitespace character, and `.strip()` reduces
  it to the empty string; with no whitespace to back off onto, the match
  at this position fails. -/
def matchAfterLit (rest : List Char) : Option (List Char) :=
  match rest.dropWhile isPythonSpace with
  | [] => if rest.isEmpty then none else some []
  | c :: cs =>
    if c = '\\' then
      if rest.head? = some '\\' then none else some []
    else some (stripChars ((c :: cs).takeWhile fun x => ¬ x = '\\'))

/-- `re.search(r"X-Message-Type:\s*([^\\]+)", ...)`: scan left to right for
the first position where the whole pattern matches; the result is the
already-`.strip()`ed first capture group. -/
def searchXMT : List Char → Option (List Char)
  | [] => none
  | c :: cs =>
    match dropLit xmtLit (c :: cs) with
    | some rest =>
      match matchAfterLit rest with
      | some g => some g
      | none => searchXMT cs
    | none => searchXMT cs

/-- `retrieve_message_type` (traffic_analyzer.py lines 455-463):
`re.search(r"X-Message-Type:\s*([^\\]+)", line)` and, on a match,
`match.group(1).strip()`; `None` otherwise. -/
def retrieve_message_type (line : String) : Option String :=
  (searchXMT line.toList).map fun g => String.mk g

/-- The separator `"\r\n,"` on which `_extract_frame_metadata` splits a
header-field value (traffic_analyzer.py lines 243 and 254). -/
def crlfComma : List Char := ['\r', '\n', ',']

/-- Fuel-driven worker for `pySplit`; the fuel (instantiated with the
input's length, an upper bound on the number of steps) only makes the
recursion structural. -/
def pySplitAux (sep : List Char) : Nat → List Char → List Char → List (List Char)
  | _, [], acc => [acc.reverse]
  | 0, l, acc => [acc.reverse ++ l]
  | fuel + 1, c :: cs, acc =>
    match dropLit sep (c :: cs) with
    | some rest => acc.reverse :: pySplitAux sep fuel rest []
    | none => pySplitAux sep fuel cs (c :: acc)

/-- Python `str.split(sep)` for a non-empty separator: split on the
non-overlapping occurrences of `sep`, scanned left to right, keeping
empty pieces. -/
def pySplit (sep l : List Char) : List (List Char) :=
  pySplitAux sep l.length l []

/-- One pass of the header loops of `_extract_frame_metadata`
(traffic_analyzer.py lines 242-261): split the field value on `"\r\n,"`,
and return the first truthy `retrieve_message_type` result (Python's
`if msg_type:` also rejects the empty string). -/
def firstMsgType (value : String) : Option String :=
  (pySplit crlfComma value.toList).findSome? fun hl =>
    match retrieve_message_type (String.mk hl) with
    | none => none
    | some m => if m = "" then none else some m

/-- The metadata `_extract_frame_metadata` (traffic_analyzer.py lines
225-263) records for one frame, given the frame's `http.request.line` and
`http.response.line` field values: the request headers are processed first
(when the value is truthy), then the response headers override the entry
when they also yield a message type. -/
def frameMeta (reqVal respVal : String) : Option (String × Bool) :=
  let fromReq : Option (String × Bool) :=
    if reqVal = "" then none else (firstMsgType reqVal).map fun m => (m, false)
  let fromResp : Option (String × Bool) :=
    if respVal = "" then none else (firstMsgType respVal).map fun m => (m, true)
  match fromResp with
  | some x => some x
  | none => fromReq

/-- The `(msg_type, is_response)` pair `_analyze_http_packets` uses for one
frame (traffic_analyzer.py lines 211-215): the frame's metadata when
present, `("UNKNOWN", False)` otherwise. (tshark frame numbers are unique
within a capture, so per-frame metadata lookup is the metadata computed
from that frame's own line.) -/
def classify_http (reqVal respVal : String) : String × Bool :=
  match frameMeta reqVal respVal with
  | some x => x
  | none => ("UNKNOWN", false)

/-- The fixed key set of the `by_message_type` dictionary
(traffic_analyzer.py lines 74-82). -/
inductive MsgType where
  | DELTA | ANTI_ENTROPY | STATE | STATS | POSITION | HELLO | UNKNOWN
deriving DecidableEq

/-- All seven buckets, in the order `_initialize_results` creates them. -/
def MsgType.all : List MsgType :=
  [.DELTA, .ANTI_ENTROPY, .STATE, .STATS, .POSITION, .HELLO, .UNKNOWN]

/-- Dictionary-key resolution of `_update_message_type_stats`
(traffic_analyzer.py lines 282-283): `if msg_type not in
results["by_message_type"]: msg_type = "UNKNOWN"`, then the string key
indexes the fixed dictionary. -/
def lookupMsgType (s : String) : MsgType :=
  if s = "DELTA" then .DELTA
  else if s = "ANTI-ENTROPY" then .ANTI_ENTROPY
  else if s = "STATE" then .STATE
  else if s = "STATS" then .STATS
  else if s = "POSITION" then .POSITION
  else if s = "HELLO" then .HELLO
  else .UNKNOWN

/-- One bucket of `by_message_type` (traffic_analyzer.py lines 93-102). -/
structure MessageTypeStat where
  count : Nat
  bytes : Nat
  requests : Nat
  responses : Nat
  percentage_unresponded : ℚ
deriving DecidableEq

/-- The results dictionary of the analyzer (traffic_analyzer.py
lines 84-103). -/
structure Results where
  total_packets : Nat
  total_bytes : Nat
  udp_packets : Nat
  udp_bytes : Nat
  tcp_packets : Nat
  tcp_bytes : Nat
  avg_packet_size : ℚ
  packet_sizes : List Nat
  by_message_type : MsgType → MessageTypeStat

/-- `_initialize_results` (traffic_analyzer.py lines 72-103). -/
def initialize_results : Results where
  total_packets := 0
  total_bytes := 0
  udp_packets := 0
  udp_bytes := 0
  tcp_packets := 0
  tcp_bytes := 0
  avg_packet_size := 0
  packet_sizes := []
  by_message_type := fun _ =>
    { count := 0, bytes := 0, requests := 0, responses := 0
      percentage_unresponded := 0 }

/-- `_update_packet_stats` (traffic_analyzer.py lines 265-276). -/
def update_packet_stats (r : Results) (size : Nat) (is_udp : Bool) : Results :=
  let r' := { r with
    total_packets := r.total_packets + 1
    total_bytes := r.total_bytes + size
    packet_sizes := r.packet_sizes ++ [size] }
  if is_udp then
    { r' with udp_packets := r'.udp_packets + 1, udp_bytes := r'.udp_bytes + size }
  else
    { r' with tcp_packets := r'.tcp_packets + 1, tcp_bytes := r'.tcp_bytes + size }

/-- `_update_message_type_stats` (traffic_analyzer.py lines 278-291). -/
def update_message_type_stats (r : Results) (msg_type : String) (size : Nat)
    (is_request : Bool) : Results :=
  let t := lookupMsgType msg_type
  let s := r.by_message_type t
  let s' : MessageTypeStat :=
    { s with
      count := s.count + 1
      bytes := s.bytes + size
      requests := if is_request then s.requests + 1 else s.requests
      responses := if is_request then s.responses else s.responses + 1 }
  { r with by_message_type := Function.update r.by_message_type t s' }

/-- The per-line body of `_analyze_udp_packets` (traffic_analyzer.py lines
148-162): update the global counters with `is_udp=True`, then fold the
record into the `HELLO` bucket with `is_request=True` — every UDP record,
with no inspection of ports or payload. -/
def processUdpRecord (r : Results) (size : Nat) : Results :=
  update_message_type_stats (update_packet_stats r size true) "HELLO" size true

/-- One decoded line of the HTTP tshark output: frame length plus the
`http.request.line` and `http.response.line` field values. -/
structure HttpRec where
  size : Nat
  reqVal : String
  respVal : String
deriving DecidableEq

/-- The per-line body of `_analyze_http_packets` (traffic_analyzer.py lines
197-220): update the global counters with `is_udp=False`, then fold the
record into the bucket of its classified message type, with
`is_request = not is_response`. -/
def processHttpRecord (r : Results) (rec : HttpRec) : Results :=
  let c := classify_http rec.reqVal rec.respVal
  update_message_type_stats (update_packet_stats r rec.size false) c.1 rec.size (! c.2)

/-- `_calculate_statistics` (traffic_analyzer.py lines 293-309): set the
average packet size when `total_packets > 0`, and each bucket's
unresponded percentage (with the `requests == 0` guard). -/
def calculate_statistics (r : Results) : Results :=
  let r' :=
    if r.total_packets > 0 then
      { r with avg_packet_size := (r.total_bytes : ℚ) / (r.total_packets : ℚ) }
    else r
  { r' with by_message_type := fun t =>
      let s := r'.by_message_type t
      if s.requests > 0 then
        { s with percentage_unresponded :=
            ((s.requests : ℚ) - (s.responses : ℚ)) / (s.requests : ℚ) * 100 }
      else
        { s with percentage_unresponded := 0 } }

/-- The successful path of `analyze_pcap` (traffic_analyzer.py lines
116-125): initialize, fold in all UDP records, then all HTTP records,
then finalize the derived statistics. -/
def analyze_core (udp : List Nat) (http : List HttpRec) : Results :=
  calculate_statistics
    (http.foldl processHttpRecord (udp.foldl processUdpRecord initialize_results))

/-- The distinct capture-failure diagnostics the analyzer prints:
`is empty` (traffic_analyzer.py line 62), `is too small` (line 66), and
the tshark-reported `cut short` truncation (line 315). -/
inductive PcapFailure where
  | emptyFile | tooSmall | cutShort
deriving DecidableEq

/-- `_validate_pcap_file` (traffic_analyzer.py lines 55-70) on the file's
size (`none` models a file that does not exist): the returned flag, paired
with the diagnostic it prints (the missing-file branch prints nothing). -/
def validate_pcap_file (fileSize : Option Nat) : Bool × Option PcapFailure :=
  match fileSize with
  | none => (false, none)
  | some sz =>
    if sz = 0 then (false, some .emptyFile)
    else if sz < 24 then (false, some .tooSmall)
    else (true, none)

/-- The diagnostic branch of `_handle_pcap_error` (traffic_analyzer.py
lines 311-339): the truncation diagnostic is chosen iff the parse tool's
stderr contains `cut short`. -/
def handle_pcap_error_kind (stderrMsg : String) : Option PcapFailure :=
  if listContains "cut short".toList stderrMsg.toList
      || listContains "appears to have been cut short".toList stderrMsg.toList
  then some .cutShort
  else none

/-- One capture source: the pcap file's size (`none` = missing file) and
its decoded UDP and HTTP records. -/
structure PcapSource where
  fileSize : Option Nat
  udp : List Nat
  http : List HttpRec

/-- `analyze_pcap` (traffic_analyzer.py lines 105-125): validate first and
return the empty result (`{}`, modelled as `none`) without any parsing
when validation fails; otherwise run the analysis. -/
def analyze_pcap (src : PcapSource) : Option Results :=
  if (validate_pcap_file src.fileSize).1 then some (analyze_core src.udp src.http)
  else none

/-- The per-source collection of `analyze_all` (traffic_analyzer.py lines
341-348): `if stats:` keeps only the sources whose analysis returned a
non-empty result. -/
def analyze_all (srcs : List PcapSource) : List Results :=
  srcs.filterMap analyze_pcap

/-- The packet total the summary report aggregates
(traffic_analyzer.py line 372). -/
def aggregate_total_packets (srcs : List PcapSource) : Nat :=
  ((analyze_all srcs).map fun r => r.total_packets).sum

/-- The byte total the summary report aggregates
(traffic_analyzer.py line 373). -/
def aggregate_total_bytes (srcs : List PcapSource) : Nat :=
  ((analyze_all srcs).map fun r => r.total_bytes).sum

/-- `sum(stat["count"] for stat in results["by_message_type"].values())`:
the packet count summed over all seven buckets. -/
def sumCounts (r : Results) : Nat :=
  (MsgType.all.map fun t => (r.by_message_type t).count).sum

/-- `sum(stat["bytes"] for stat in results["by_message_type"].values())`:
the byte count summed over all seven buckets. -/
def sumBytes (r : Results) : Nat :=
  (MsgType.all.map fun t => (r.by_message_type t).bytes).sum

/-! ## Helper lemmas -/

lemma sum_map_range {M : Type} [AddCommMonoid M] (f : ℕ → M) (n : ℕ) :
    ((List.range n).map f).sum = ∑ i ∈ Finset.range n, f i := by
  induction n with
  | zero => simp
  | succ n ih =>
    rw [List.range_succ, List.map_append, List.sum_append, Finset.sum_range_succ, ih]
    simp

lemma sum_map_range_ico {M : Type} [AddCommMonoid M] (f : ℕ → M) (a len : ℕ) :
    ((List.range' a len).map f).sum = ∑ j ∈ Finset.Ico a (a + len), f j := by
  induction len generalizing a with
  | zero => simp
  | succ len ih =>
    have h1 : List.range' a (len + 1) = a :: List.range' (a + 1) len := rfl
    rw [h1, List.map_cons, List.sum_cons, ih (a + 1),
      show a + 1 + len = a + (len + 1) by omega,
      Finset.sum_eq_sum_Ico_succ_bot (show a < a + (len + 1) by omega)]

lemma sum_flatMap_eq {α M : Type} [AddCommMonoid M] (g : α → List M) (l : List α) :
    (l.flatMap g).sum = (l.map fun a => (g a).sum).sum := by
  induction l with
  | nil => rfl
  | cons a l ih => rw [List.flatMap_cons, List.sum_append, List.map_cons, List.sum_cons, ih]

lemma pairScores_sum (replicas : List (Finset String)) :
    (pairScores replicas).sum =
      ∑ i ∈ Finset.range replicas.length, ∑ j ∈ Finset.Ico (i + 1) replicas.length,
        jaccard_index (replicas.getD i ∅) (replicas.getD j ∅) := by
  rw [pairScores, sum_flatMap_eq, sum_map_range]
  refine Finset.sum_congr rfl fun i hi => ?_
  rw [sum_map_range_ico, show i + 1 + (replicas.length - (i + 1)) = replicas.length by
    have := Finset.mem_range.mp hi; omega]

lemma pairScores_length (replicas : List (Finset String)) :
    (pairScores replicas).length = replicas.length.choose 2 := by
  rw [pairScores, List.length_flatMap]
  have h1 : ∀ i : ℕ, (Function.comp List.length fun i =>
      (List.range' (i + 1) (replicas.length - (i + 1))).map fun j =>
        jaccard_index (replicas.getD i ∅) (replicas.getD j ∅)) i
      = replicas.length - 1 - i := by
    intro i
    simp [Function.comp, List.length_range']
    omega
  rw [List.map_congr_left fun i _ => h1 i, sum_map_range,
    Finset.sum_range_reflect (fun i => i) replicas.length, Nat.choose_two_right]
  have := Finset.sum_range_id_mul_two replicas.length
  omega

/-! ## Claim theorems -/

lemma pairScoresFP_length (replicas : List (Finset String)) :
    (pairScoresFP replicas).length = replicas.length.choose 2 := by
  rw [pairScoresFP, List.length_flatMap]
  have h1 : ∀ i : ℕ, (Function.comp List.length fun i =>
      (List.range' (i + 1) (replicas.length - (i + 1))).map fun j =>
        jaccard_fp (replicas.getD i ∅) (replicas.getD j ∅)) i
      = replicas.length - 1 - i := by
    intro i
    simp [Function.comp, List.length_range']
    omega
  rw [List.map_congr_left fun i _ => h1 i, sum_map_range,
    Finset.sum_range_reflect (fun i => i) replicas.length, Nat.choose_two_right]
  have := Finset.sum_range_id_mul_two replicas.length
  omega

lemma convergence_exact_example :
    convergence_index [{"a", "b"}, {"a"}, {"a", "b", "c"}] = 1 / 2 := by
  have hps : pairScores [{"a", "b"}, {"a"}, {"a", "b", "c"}]
      = [jaccard_index {"a", "b"} {"a"}, jaccard_index {"a", "b"} {"a", "b", "c"},
         jaccard_index {"a"} {"a", "b", "c"}] := rfl
  have h1 : jaccard_index {"a", "b"} {"a"} = 1 / 2 := by
    rw [jaccard_index, if_neg (by decide),
      show (({"a", "b"} : Finset String) ∩ {"a"}).card = 1 from rfl,
      show (({"a", "b"} : Finset String) ∪ {"a"}).card = 2 from rfl]
    norm_num
  have h2 : jaccard_index {"a", "b"} {"a", "b", "c"} = 2 / 3 := by
    rw [jaccard_index, if_neg (by decide),
      show (({"a", "b"} : Finset String) ∩ {"a", "b", "c"}).card = 2 from rfl,
      show (({"a", "b"} : Finset String) ∪ {"a", "b", "c"}).card = 3 from rfl]
    norm_num
  have h3 : jaccard_index {"a"} {"a", "b", "c"} = 1 / 3 := by
    rw [jaccard_index, if_neg (by decide),
      show (({"a"} : Finset String) ∩ {"a", "b", "c"}).card = 1 from rfl,
      show (({"a"} : Finset String) ∪ {"a", "b", "c"}).card = 3 from rfl]
    norm_num
  rw [convergence_index, if_neg (by decide), hps, h1, h2, h3]
  norm_num

/-- C1 counterexample: on the claim's own example the program — IEEE-754
binary64 arithmetic, modelled exactly by `convergence_index_fp` — returns
(2^53 − 1)/2^54 = 0.49999999999999994, not the claimed 0.5: the left-fold
partial sum 0.5 + fl(2/3) falls on a representable midpoint and
round-half-even rounds it down, leaving the final quotient one ulp below
1/2. -/
theorem C1_counterexample :
    convergence_index_fp [{"a", "b"}, {"a"}, {"a", "b", "c"}]
      = ⟨9007199254740991, 54⟩ ∧
    toRat ⟨9007199254740991, 54⟩ = (2 ^ 53 - 1) / 2 ^ 54 ∧
    toRat (convergence_index_fp [{"a", "b"}, {"a"}, {"a", "b", "c"}]) ≠ 1 / 2 := by
  refine ⟨by decide, ?_, ?_⟩
  · rw [toRat]
    norm_num
  · rw [show convergence_index_fp [{"a", "b"}, {"a"}, {"a", "b", "c"}]
        = ⟨9007199254740991, 54⟩ from by decide, toRat]
    norm_num

/-- C1 (amended): `convergence_index` returns 1.0 for fewer than 2
replicas; otherwise it builds the `jaccard_index` score of every
unordered pair exactly once (C(N,2) scores) and returns the IEEE-double
evaluation of their mean (left-fold sum, then one division), which can
differ from the exact mean by rounding: the exact mean of the spec's
example is 1/2, but the program returns (2^53 − 1)/2^54, one ulp below;
on two disjoint non-empty sets the result is exactly 0.0. -/
theorem C1_convergence_fp_spec :
    (∀ replicas : List (Finset String), replicas.length < 2 →
      toRat (convergence_index_fp replicas) = 1) ∧
    (∀ replicas : List (Finset String), 2 ≤ replicas.length →
      (pairScoresFP replicas).length = replicas.length.choose 2 ∧
      convergence_index replicas =
        (∑ i ∈ Finset.range replicas.length, ∑ j ∈ Finset.Ico (i + 1) replicas.length,
          jaccard_index (replicas.getD i ∅) (replicas.getD j ∅)) /
          (replicas.length.choose 2 : ℚ)) ∧
    convergence_index [{"a", "b"}, {"a"}, {"a", "b", "c"}] = 1 / 2 ∧
    toRat (convergence_index_fp [{"a", "b"}, {"a"}, {"a", "b", "c"}])
      = (2 ^ 53 - 1) / 2 ^ 54 ∧
    (∀ a b : Finset String, a.Nonempty → b.Nonempty → a ∩ b = ∅ →
      toRat (convergence_index_fp [a, b]) = 0) := by
  refine ⟨?_, ?_, convergence_exact_example, ?_, ?_⟩
  · intro replicas h
    rw [convergence_index_fp, if_pos h, toRat]
    norm_num
  · intro replicas h
    refine ⟨pairScoresFP_length replicas, ?_⟩
    rw [convergence_index, if_neg (by omega), pairScores_sum, pairScores_length]
  · rw [show convergence_index_fp [{"a", "b"}, {"a"}, {"a", "b", "c"}]
        = ⟨9007199254740991, 54⟩ from by decide, toRat]
    norm_num
  · intro a b ha hb hab
    have hps : pairScoresFP [a, b] = [jaccard_fp a b] := rfl
    have hj : jaccard_fp a b = ⟨0, 0⟩ := by
      rw [jaccard_fp, if_neg fun hc => Finset.nonempty_iff_ne_empty.mp ha hc.1,
        hab, Finset.card_empty]
      rfl
    rw [convergence_index_fp, if_neg (by simp), hps, hj,
      show fpDivNat ([(⟨0, 0⟩ : Dyad)].foldl fpAdd ⟨0, 0⟩) [(⟨0, 0⟩ : Dyad)].length
        = ⟨0, 0⟩ from by decide, toRat]
    norm_num

/-- Witness for C1 (amended) at concrete inputs. -/
theorem C1_convergence_fp_spec_witness :
    toRat (convergence_index_fp []) = 1 ∧
    (pairScoresFP [∅, {"z"}]).length = Nat.choose 2 2 ∧
    toRat (convergence_index_fp [{"x"}, {"y"}]) = 0 :=
  ⟨C1_convergence_fp_spec.1 [] (by decide),
   (C1_convergence_fp_spec.2.1 [∅, {"z"}] (by decide)).1,
   C1_convergence_fp_spec.2.2.2.2 {"x"} {"y"} (by decide) (by decide) (by decide)⟩

/-- C2: `jaccard_index` returns 1 when both sets are empty, and otherwise
`|a ∩ b| / |a ∪ b|` with the union non-empty (so no division by zero) and
the value in [0, 1]; moreover `jaccard_index A A = 1` for non-empty `A`
and `jaccard_index` is symmetric. -/
theorem C2_jaccard_spec :
    (jaccard_index ∅ ∅ = 1) ∧
    (∀ a b : Finset String, ¬(a = ∅ ∧ b = ∅) →
      jaccard_index a b = ((a ∩ b).card : ℚ) / ((a ∪ b).card : ℚ) ∧
      (a ∪ b).Nonempty ∧
      0 ≤ jaccard_index a b ∧ jaccard_index a b ≤ 1) ∧
    (∀ a : Finset String, a.Nonempty → jaccard_index a a = 1) ∧
    (∀ a b : Finset String, jaccard_index a b = jaccard_index b a) := by
  have hval : ∀ a b : Finset String, ¬(a = ∅ ∧ b = ∅) →
      jaccard_index a b = ((a ∩ b).card : ℚ) / ((a ∪ b).card : ℚ) := by
    intro a b h
    rw [jaccard_index, if_neg h]
  have hunion : ∀ a b : Finset String, ¬(a = ∅ ∧ b = ∅) → (a ∪ b).Nonempty := by
    intro a b h
    rw [Finset.nonempty_iff_ne_empty]
    intro hu
    exact h (Finset.union_eq_empty.mp hu)
  refine ⟨by simp [jaccard_index], fun a b h => ⟨hval a b h, hunion a b h, ?_, ?_⟩, ?_, ?_⟩
  · rw [hval a b h]
    positivity
  · rw [hval a b h]
    have hpos : (0 : ℚ) < ((a ∪ b).card : ℚ) := by
      exact_mod_cast Finset.card_pos.mpr (hunion a b h)
    rw [div_le_one hpos]
    exact_mod_cast Finset.card_le_card Finset.inter_subset_union
  · intro a ha
    have hne : ¬(a = ∅ ∧ a = ∅) := by
      simp [Finset.nonempty_iff_ne_empty.mp ha]
    rw [hval a a hne, Finset.inter_self, Finset.union_self, div_self]
    exact_mod_cast Finset.card_ne_zero_of_mem ha.choose_spec
  · intro a b
    simp only [jaccard_index, Finset.inter_comm, Finset.union_comm, and_comm]

/-- Witness for C2 at concrete inputs. -/
theorem C2_jaccard_spec_witness :
    jaccard_index {"a"} {"a"} = 1 ∧ (({"a"} : Finset String) ∪ ∅).Nonempty :=
  ⟨C2_jaccard_spec.2.2.1 {"a"} (by decide),
   (C2_jaccard_spec.2.1 {"a"} ∅ (by decide)).2.1⟩

lemma foldl_preserve {α β : Type} (P : α → Prop) {f : α → β → α} (l : List β)
    (hstep : ∀ x b, b ∈ l → P x → P (f x b)) :
    ∀ a : α, P a → P (l.foldl f a) := by
  induction l with
  | nil => exact fun a h => h
  | cons b l ih =>
    intro a h
    exact ih (fun x c hc hx => hstep x c (List.mem_cons_of_mem _ hc) hx)
      (f a b) (hstep a b (List.mem_cons_self _ _) h)

lemma update_packet_stats_by (r : Results) (size : Nat) (u : Bool) :
    (update_packet_stats r size u).by_message_type = r.by_message_type := by
  cases u <;> rfl

lemma update_packet_stats_total (r : Results) (size : Nat) (u : Bool) :
    (update_packet_stats r size u).total_packets = r.total_packets + 1 := by
  cases u <;> rfl

lemma update_packet_stats_bytes (r : Results) (size : Nat) (u : Bool) :
    (update_packet_stats r size u).total_bytes = r.total_bytes + size := by
  cases u <;> rfl

lemma sum_update_count (F : MsgType → MessageTypeStat) (t : MsgType)
    (s' : MessageTypeStat) (h : s'.count = (F t).count + 1) :
    (MsgType.all.map fun u => (Function.update F t s' u).count).sum
      = (MsgType.all.map fun u => (F u).count).sum + 1 := by
  cases t <;> simp [MsgType.all, Function.update_apply, h] <;> omega

lemma sum_update_bytes (F : MsgType → MessageTypeStat) (t : MsgType)
    (s' : MessageTypeStat) (sz : Nat) (h : s'.bytes = (F t).bytes + sz) :
    (MsgType.all.map fun u => (Function.update F t s' u).bytes).sum
      = (MsgType.all.map fun u => (F u).bytes).sum + sz := by
  cases t <;> simp [MsgType.all, Function.update_apply, h] <;> omega

lemma sumCounts_update_mts (r : Results) (mt : String) (size : Nat) (b : Bool) :
    sumCounts (update_message_type_stats r mt size b) = sumCounts r + 1 :=
  sum_update_count r.by_message_type (lookupMsgType mt) _ rfl

lemma sumBytes_update_mts (r : Results) (mt : String) (size : Nat) (b : Bool) :
    sumBytes (update_message_type_stats r mt size b) = sumBytes r + size :=
  sum_update_bytes r.by_message_type (lookupMsgType mt) _ size rfl

lemma sumCounts_update_packet (r : Results) (size : Nat) (u : Bool) :
    sumCounts (update_packet_stats r size u) = sumCounts r := by
  rw [sumCounts, update_packet_stats_by, sumCounts]

lemma sumBytes_update_packet (r : Results) (size : Nat) (u : Bool) :
    sumBytes (update_packet_stats r size u) = sumBytes r := by
  rw [sumBytes, update_packet_stats_by, sumBytes]

lemma calc_by_fields (r : Results) (t : MsgType) :
    ((calculate_statistics r).by_message_type t).count = (r.by_message_type t).count ∧
    ((calculate_statistics r).by_message_type t).bytes = (r.by_message_type t).bytes ∧
    ((calculate_statistics r).by_message_type t).requests = (r.by_message_type t).requests ∧
    ((calculate_statistics r).by_message_type t).responses = (r.by_message_type t).responses := by
  rw [calculate_statistics]
  by_cases h1 : r.total_packets > 0 <;> simp only [h1, if_true, if_false, reduceIte] <;>
    by_cases h2 : (r.by_message_type t).requests > 0 <;> simp [h2]

lemma calc_totals (r : Results) :
    (calculate_statistics r).total_packets = r.total_packets ∧
    (calculate_statistics r).total_bytes = r.total_bytes := by
  rw [calculate_statistics]
  by_cases h1 : r.total_packets > 0 <;> simp [h1]

lemma sumCounts_calc (r : Results) : sumCounts (calculate_statistics r) = sumCounts r := by
  rw [sumCounts, sumCounts]
  exact congrArg List.sum (List.map_congr_left fun t _ => (calc_by_fields r t).1)

lemma sumBytes_calc (r : Results) : sumBytes (calculate_statistics r) = sumBytes r := by
  rw [sumBytes, sumBytes]
  exact congrArg List.sum (List.map_congr_left fun t _ => (calc_by_fields r t).2.1)

lemma totals_inv_folds (udp : List Nat) (http : List HttpRec) :
    sumCounts (http.foldl processHttpRecord (udp.foldl processUdpRecord initialize_results))
      = (http.foldl processHttpRecord (udp.foldl processUdpRecord initialize_results)).total_packets ∧
    sumBytes (http.foldl processHttpRecord (udp.foldl processUdpRecord initialize_results))
      = (http.foldl processHttpRecord (udp.foldl processUdpRecord initialize_results)).total_bytes := by
  have hstepU : ∀ (x : Results) (s : Nat), s ∈ udp →
      (sumCounts x = x.total_packets ∧ sumBytes x = x.total_bytes) →
      sumCounts (processUdpRecord x s) = (processUdpRecord x s).total_packets ∧
      sumBytes (processUdpRecord x s) = (processUdpRecord x s).total_bytes := by
    intro x s _ hx
    constructor
    · rw [processUdpRecord, sumCounts_update_mts, sumCounts_update_packet, hx.1,
        update_message_type_stats, update_packet_stats_total]
    · rw [processUdpRecord, sumBytes_update_mts, sumBytes_update_packet, hx.2,
        update_message_type_stats, update_packet_stats_bytes]
  have hstepH : ∀ (x : Results) (rec : HttpRec), rec ∈ http →
      (sumCounts x = x.total_packets ∧ sumBytes x = x.total_bytes) →
      sumCounts (processHttpRecord x rec) = (processHttpRecord x rec).total_packets ∧
      sumBytes (processHttpRecord x rec) = (processHttpRecord x rec).total_bytes := by
    intro x rec _ hx
    constructor
    · rw [processHttpRecord, sumCounts_update_mts, sumCounts_update_packet, hx.1,
        update_message_type_stats, update_packet_stats_total]
    · rw [processHttpRecord, sumBytes_update_mts, sumBytes_update_packet, hx.2,
        update_message_type_stats, update_packet_stats_bytes]
  exact foldl_preserve
    (fun x => sumCounts x = x.total_packets ∧ sumBytes x = x.total_bytes) http hstepH _
    (foldl_preserve
      (fun x => sumCounts x = x.total_packets ∧ sumBytes x = x.total_bytes) udp hstepU
      initialize_results ⟨rfl, rfl⟩)

/-- C3: after analysis, the packet counts summed over all message-type
buckets equal `total_packets` and the bucket bytes sum to `total_bytes`;
a record whose classification resolves to no known tag is folded into the
`UNKNOWN` bucket (its count goes up by one), never dropped. -/
theorem C3_totals_invariant :
    ∀ (udp : List Nat) (http : List HttpRec),
      sumCounts (analyze_core udp http) = (analyze_core udp http).total_packets ∧
      sumBytes (analyze_core udp http) = (analyze_core udp http).total_bytes ∧
      (∀ r : Results, ∀ rec : HttpRec,
        lookupMsgType (classify_http rec.reqVal rec.respVal).1 = MsgType.UNKNOWN →
        ((processHttpRecord r rec).by_message_type MsgType.UNKNOWN).count
          = (r.by_message_type MsgType.UNKNOWN).count + 1) := by
  intro udp http
  obtain ⟨hc, hb⟩ := totals_inv_folds udp http
  refine ⟨?_, ?_, ?_⟩
  · rw [analyze_core, sumCounts_calc, (calc_totals _).1, hc]
  · rw [analyze_core, sumBytes_calc, (calc_totals _).2, hb]
  · intro r rec h
    have key : ∀ (x : Results) (mt : String) (sz : Nat) (b : Bool),
        ((update_message_type_stats x mt sz b).by_message_type (lookupMsgType mt)).count
          = (x.by_message_type (lookupMsgType mt)).count + 1 := by
      intro x mt sz b
      rw [update_message_type_stats]
      simp [Function.update_same]
    have h2 := key (update_packet_stats r rec.size false)
      (classify_http rec.reqVal rec.respVal).1 rec.size (! (classify_http rec.reqVal rec.respVal).2)
    rw [h, update_packet_stats_by] at h2
    exact h2

/-- Witness for C3 at a concrete input. -/
theorem C3_totals_invariant_witness :
    sumCounts (analyze_core [5] [⟨7, "GET /x HTTP/1.1", ""⟩])
      = (analyze_core [5] [⟨7, "GET /x HTTP/1.1", ""⟩]).total_packets ∧
    ((processHttpRecord initialize_results ⟨7, "GET /x HTTP/1.1", ""⟩).by_message_type
      MsgType.UNKNOWN).count
      = (initialize_results.by_message_type MsgType.UNKNOWN).count + 1 :=
  ⟨(C3_totals_invariant [5] [⟨7, "GET /x HTTP/1.1", ""⟩]).1,
   (C3_totals_invariant [5] [⟨7, "GET /x HTTP/1.1", ""⟩]).2.2 initialize_results
     ⟨7, "GET /x HTTP/1.1", ""⟩ (by decide)⟩

lemma pct_calc (r : Results) (t : MsgType) :
    ((calculate_statistics r).by_message_type t).percentage_unresponded =
      if (r.by_message_type t).requests > 0 then
        (((r.by_message_type t).requests : ℚ) - ((r.by_message_type t).responses : ℚ))
          / ((r.by_message_type t).requests : ℚ) * 100
      else 0 := by
  rw [calculate_statistics]
  by_cases h1 : r.total_packets > 0 <;>
    by_cases h2 : (r.by_message_type t).requests > 0 <;> simp [h1, h2]

lemma avg_calc (r : Results) :
    (calculate_statistics r).avg_packet_size =
      if r.total_packets > 0 then (r.total_bytes : ℚ) / (r.total_packets : ℚ)
      else r.avg_packet_size := by
  rw [calculate_statistics]
  by_cases h1 : r.total_packets > 0 <;> simp [h1]

/-- C6: for every message-type bucket after classification, the
unresponded percentage is 0 when the bucket's request count is 0 and
`(requests - responses) / requests * 100` when it is positive; the
division only happens under the positivity guard. -/
theorem C6_percentage_unresponded :
    ∀ (udp : List Nat) (http : List HttpRec) (t : MsgType),
      (((analyze_core udp http).by_message_type t).requests = 0 →
        ((analyze_core udp http).by_message_type t).percentage_unresponded = 0) ∧
      (0 < ((analyze_core udp http).by_message_type t).requests →
        ((analyze_core udp http).by_message_type t).percentage_unresponded =
          ((((analyze_core udp http).by_message_type t).requests : ℚ)
            - (((analyze_core udp http).by_message_type t).responses : ℚ))
            / (((analyze_core udp http).by_message_type t).requests : ℚ) * 100) := by
  intro udp http t
  rw [analyze_core]
  set R := http.foldl processHttpRecord (udp.foldl processUdpRecord initialize_results) with hR
  obtain ⟨-, -, hreq, hresp⟩ := calc_by_fields R t
  rw [pct_calc, hreq, hresp]
  constructor
  · intro h0
    rw [h0]
    simp
  · intro hpos
    rw [if_pos hpos]

/-- Witness for C6 at a concrete input. -/
theorem C6_percentage_unresponded_witness :
    ((analyze_core [] []).by_message_type MsgType.HELLO).percentage_unresponded = 0 :=
  (C6_percentage_unresponded [] [] MsgType.HELLO).1 rfl

/-- C7: after classification, `avg_packet_size` is 0 when there are no
packets and `total_bytes / total_packets` otherwise; the division is
guarded by `total_packets > 0`. -/
theorem C7_avg_packet_size :
    ∀ (udp : List Nat) (http : List HttpRec),
      ((analyze_core udp http).total_packets = 0 →
        (analyze_core udp http).avg_packet_size = 0) ∧
      (0 < (analyze_core udp http).total_packets →
        (analyze_core udp http).avg_packet_size =
          ((analyze_core udp http).total_bytes : ℚ)
            / ((analyze_core udp http).total_packets : ℚ)) := by
  intro udp http
  rw [analyze_core]
  set R := http.foldl processHttpRecord (udp.foldl processUdpRecord initialize_results) with hR
  have hinv : R.total_packets = 0 → R.avg_packet_size = 0 := by
    rw [hR]
    refine foldl_preserve
      (fun x : Results => x.total_packets = 0 → x.avg_packet_size = 0) http ?_ _
      (foldl_preserve
        (fun x : Results => x.total_packets = 0 → x.avg_packet_size = 0) udp ?_
        initialize_results ?_)
    · intro x rec _ _ h0
      rw [processHttpRecord, update_message_type_stats, update_packet_stats_total] at h0
      omega
    · intro x s _ _ h0
      rw [processUdpRecord, update_message_type_stats, update_packet_stats_total] at h0
      omega
    · intro _
      rfl
  obtain ⟨htp, htb⟩ := calc_totals R
  rw [avg_calc, htp, htb]
  constructor
  · intro h0
    rw [if_neg (by omega), hinv h0]
  · intro hpos
    rw [if_pos hpos]

/-- Witness for C7 at concrete inputs. -/
theorem C7_avg_packet_size_witness :
    (analyze_core [] []).avg_packet_size = 0 ∧
    (analyze_core [4] []).avg_packet_size
      = ((analyze_core [4] []).total_bytes : ℚ) / ((analyze_core [4] []).total_packets : ℚ) :=
  ⟨(C7_avg_packet_size [] []).1 rfl, (C7_avg_packet_size [4] []).2 (by decide)⟩

/-- C4 counterexample: a TCP/HTTP record whose request line carries a
path hint (`/delta`, a known endpoint) but no `X-Message-Type` header is
classified `UNKNOWN`, not mapped through any path-prefix table; and a
present type hint is used verbatim, not case-normalized: the hint value
`delta` lands in the `UNKNOWN` bucket, not `DELTA`. -/
theorem C4_counterexample :
    classify_http "GET /delta HTTP/1.1" "" = ("UNKNOWN", false) ∧
    classify_http "GET /anti-entropy HTTP/1.1" "" = ("UNKNOWN", false) ∧
    classify_http "X-Message-Type: delta" "" = ("delta", false) ∧
    lookupMsgType "delta" = MsgType.UNKNOWN ∧
    MsgType.UNKNOWN ≠ MsgType.DELTA ∧
    MsgType.UNKNOWN ≠ MsgType.ANTI_ENTROPY := by
  exact ⟨by decide, by decide, by decide, by decide, by decide, by decide⟩

lemma searchXMT_of_not_contains (l : List Char) (h : listContains xmtLit l = false) :
    searchXMT l = none := by
  induction l with
  | nil => rfl
  | cons c cs ih =>
    rw [listContains, Bool.or_eq_false_iff] at h
    cases hd : dropLit xmtLit (c :: cs) with
    | none => simp only [searchXMT, hd]; exact ih h.2
    | some rest => rw [hd] at h; simp at h

lemma firstMsgType_of_not_contains (value : String)
    (h : ∀ hl ∈ pySplit crlfComma value.toList, listContains xmtLit hl = false) :
    firstMsgType value = none := by
  rw [firstMsgType, List.findSome?_eq_none_iff]
  intro hl hmem
  rw [retrieve_message_type,
    show (String.mk hl).toList = hl from rfl,
    searchXMT_of_not_contains hl (h hl hmem)]
  rfl

/-- C4 (amended): the classifier has no path-prefix table and performs no
case normalization. A TCP/HTTP record none of whose header lines contains
the literal `X-Message-Type:` is classified `("UNKNOWN", false)` whatever
request path it carries; when a hint is present its value is used
verbatim after whitespace stripping, and only the seven exact uppercase
keys select a non-`UNKNOWN` bucket — any other value (e.g. lowercase
`delta`) falls to `UNKNOWN`. -/
theorem C4_header_only_classification :
    (∀ reqVal respVal : String,
      (∀ hl ∈ pySplit crlfComma reqVal.toList, listContains xmtLit hl = false) →
      (∀ hl ∈ pySplit crlfComma respVal.toList, listContains xmtLit hl = false) →
      classify_http reqVal respVal = ("UNKNOWN", false)) ∧
    (∀ s : String,
      s ∉ (["DELTA", "ANTI-ENTROPY", "STATE", "STATS", "POSITION", "HELLO",
        "UNKNOWN"] : List String) →
      lookupMsgType s = MsgType.UNKNOWN) ∧
    retrieve_message_type "X-Message-Type: DELTA" = some "DELTA" ∧
    lookupMsgType "DELTA" = MsgType.DELTA ∧
    lookupMsgType "ANTI-ENTROPY" = MsgType.ANTI_ENTROPY ∧
    lookupMsgType "STATE" = MsgType.STATE ∧
    lookupMsgType "STATS" = MsgType.STATS ∧
    lookupMsgType "POSITION" = MsgType.POSITION ∧
    lookupMsgType "HELLO" = MsgType.HELLO := by
  refine ⟨?_, ?_, by decide, by decide, by decide, by decide, by decide, by decide, by decide⟩
  · intro reqVal respVal hreq hresp
    have h1 := firstMsgType_of_not_contains reqVal hreq
    have h2 := firstMsgType_of_not_contains respVal hresp
    rw [classify_http, frameMeta, h1, h2]
    by_cases e1 : reqVal = "" <;> by_cases e2 : respVal = "" <;> simp [e1, e2]
  · intro s hs
    simp only [List.mem_cons, not_or] at hs
    obtain ⟨n1, n2, n3, n4, n5, n6, n7, -⟩ := hs
    rw [lookupMsgType, if_neg n1, if_neg n2, if_neg n3, if_neg n4, if_neg n5, if_neg n6]

/-- Witness for C4 (amended) at a concrete input. -/
theorem C4_header_only_classification_witness :
    classify_http "GET /state HTTP/1.1" "" = ("UNKNOWN", false) ∧
    lookupMsgType "Delta" = MsgType.UNKNOWN :=
  ⟨C4_header_only_classification.1 "GET /state HTTP/1.1" "" (by decide) (by decide),
   C4_header_only_classification.2.1 "Delta" (by decide)⟩

/-- C5 counterexample: with two drones, one failing its fetch and one
holding the single cell `(0,0)`, the code computes the round's score over
both sets — the failed node contributing a fresh empty set — giving 0,
whereas a computation over the succeeding node alone gives 1. -/
theorem C5_counterexample :
    roundScore [StateResponse.parseError,
      StateResponse.ok [⟨⟨0, 0⟩, ⟨"d1", 100, 1⟩⟩]] = 0 ∧
    convergence_index (roundDeltaSets [StateResponse.ok [⟨⟨0, 0⟩, ⟨"d1", 100, 1⟩⟩]]) = 1 := by
  constructor
  · have h0 : roundDeltaSets [StateResponse.parseError,
        StateResponse.ok [⟨⟨0, 0⟩, ⟨"d1", 100, 1⟩⟩]] = [∅, {"0,0"}] := rfl
    have hps : pairScores [∅, {"0,0"}] = [jaccard_index ∅ {"0,0"}] := rfl
    have hj : jaccard_index ∅ {"0,0"} = 0 := by
      rw [jaccard_index, if_neg (by decide),
        show ((∅ : Finset String) ∩ {"0,0"}).card = 0 from rfl]
      simp
    rw [roundScore, h0, convergence_index, if_neg (by decide), hps, hj]
    simp
  · rfl

lemma processNode_of_failed : ∀ resp : StateResponse,
    (fetch_state resp).1 = none → (processNode resp).1 = ∅
  | .parseError, _ => rfl
  | .missingKey, _ => rfl
  | .ok [], _ => rfl
  | .ok (_ :: _), h => absurd h (by simp [fetch_state])

lemma roundDeltaSets_failed : ∀ (resps : List StateResponse) (i : ℕ),
    i < resps.length →
    (fetch_state (resps.getD i StateResponse.parseError)).1 = none →
    (roundDeltaSets resps).getD i ∅ = ∅ := by
  intro resps
  induction resps with
  | nil => intro i hi _; simp at hi
  | cons r rest ih =>
    intro i hi hf
    cases i with
    | zero => exact processNode_of_failed r hf
    | succ n =>
      exact ih n (by simp only [List.length_cons] at hi; omega) hf

/-- C5 (amended): a node whose state fetch fails in a round is *not*
excluded from that round's pairwise comparison — the round's set list
keeps one entry per node, and a failed node's entry is the empty set,
rebuilt fresh from this round's responses alone (never a stale set). -/
theorem C5_failed_node_contributes_empty_set :
    ∀ resps : List StateResponse,
      (roundDeltaSets resps).length = resps.length ∧
      (∀ i : ℕ, i < resps.length →
        (fetch_state (resps.getD i StateResponse.parseError)).1 = none →
        (roundDeltaSets resps).getD i ∅ = ∅) ∧
      roundScore resps = convergence_index (roundDeltaSets resps) := by
  intro resps
  exact ⟨by simp [roundDeltaSets], roundDeltaSets_failed resps, rfl⟩

/-- Witness for C5 (amended) at a concrete input. -/
theorem C5_failed_node_contributes_empty_set_witness :
    (roundDeltaSets [StateResponse.parseError]).getD 0 ∅ = ∅ :=
  (C5_failed_node_contributes_empty_set [StateResponse.parseError]).2.1 0
    (by decide) rfl

/-- C8: a capture source whose pcap file is missing, empty, or smaller
than the 24-byte pcap header is rejected by validation before any
parsing: `analyze_pcap` returns the empty result, the source is dropped
from the aggregation and contributes zero to the aggregated totals; and
the diagnostics for `empty`, `too small`, and tool-reported truncation
are three distinct kinds. -/
theorem C8_invalid_pcap_excluded :
    (∀ src : PcapSource,
      (src.fileSize = none ∨ src.fileSize = some 0 ∨
        ∃ sz, src.fileSize = some sz ∧ sz < 24) →
      analyze_pcap src = none ∧
      ∀ rest : List PcapSource,
        analyze_all (src :: rest) = analyze_all rest ∧
        aggregate_total_packets (src :: rest) = aggregate_total_packets rest ∧
        aggregate_total_bytes (src :: rest) = aggregate_total_bytes rest) ∧
    (validate_pcap_file (some 0)).2 = some PcapFailure.emptyFile ∧
    (validate_pcap_file (some 10)).2 = some PcapFailure.tooSmall ∧
    handle_pcap_error_kind "pcap appears to have been cut short" = some PcapFailure.cutShort ∧
    PcapFailure.emptyFile ≠ PcapFailure.tooSmall ∧
    PcapFailure.emptyFile ≠ PcapFailure.cutShort ∧
    PcapFailure.tooSmall ≠ PcapFailure.cutShort := by
  refine ⟨?_, by decide, by decide, by decide, by decide, by decide, by decide⟩
  intro src h
  have hv : (validate_pcap_file src.fileSize).1 = false := by
    rcases h with h | h | ⟨sz, h, hlt⟩ <;> rw [h]
    · rfl
    · rfl
    · by_cases hz : sz = 0 <;> simp [validate_pcap_file, hz, hlt]
  have hp : analyze_pcap src = none := by
    rw [analyze_pcap, hv]
    simp
  refine ⟨hp, fun rest => ?_⟩
  have ha : analyze_all (src :: rest) = analyze_all rest := by
    rw [analyze_all, List.filterMap_cons, hp, analyze_all]
  exact ⟨ha, by rw [aggregate_total_packets, ha, aggregate_total_packets],
    by rw [aggregate_total_bytes, ha, aggregate_total_bytes]⟩

/-- Witness for C8 at a concrete input. -/
theorem C8_invalid_pcap_excluded_witness :
    analyze_pcap ⟨none, [9], []⟩ = none ∧
    aggregate_total_packets [⟨none, [9], []⟩] = aggregate_total_packets [] :=
  ⟨(C8_invalid_pcap_excluded.1 ⟨none, [9], []⟩ (Or.inl rfl)).1,
   ((C8_invalid_pcap_excluded.1 ⟨none, [9], []⟩ (Or.inl rfl)).2 []).2.1⟩

lemma by_mts_noteq (r : Results) (mt : String) (size : Nat) (b : Bool) (t : MsgType)
    (h : t ≠ lookupMsgType mt) :
    (update_message_type_stats r mt size b).by_message_type t = r.by_message_type t :=
  Function.update_noteq h _ _

lemma responses_update_mts (r : Results) (mt : String) (size : Nat) (t : MsgType) :
    ((update_message_type_stats r mt size true).by_message_type t).responses
      = (r.by_message_type t).responses := by
  by_cases h : t = lookupMsgType mt
  · subst h
    rw [update_message_type_stats]
    simp [Function.update_same]
  · rw [by_mts_noteq r mt size true t h]

lemma requests_update_mts_le (r : Results) (mt : String) (size : Nat) (b : Bool)
    (t : MsgType) :
    (r.by_message_type t).requests
      ≤ ((update_message_type_stats r mt size b).by_message_type t).requests := by
  by_cases h : t = lookupMsgType mt
  · subst h
    rw [update_message_type_stats]
    cases b <;> simp [Function.update_same]
  · rw [by_mts_noteq r mt size b t h]

lemma processUdp_hello_requests (x : Results) (s : Nat) :
    ((processUdpRecord x s).by_message_type MsgType.HELLO).requests
      = (x.by_message_type MsgType.HELLO).requests + 1 := rfl

lemma processUdp_hello_responses (x : Results) (s : Nat) :
    ((processUdpRecord x s).by_message_type MsgType.HELLO).responses
      = (x.by_message_type MsgType.HELLO).responses := rfl

lemma processHttp_hello_responses (x : Results) (rec : HttpRec)
    (h : ¬(lookupMsgType (classify_http rec.reqVal rec.respVal).1 = MsgType.HELLO ∧
        (classify_http rec.reqVal rec.respVal).2 = true)) :
    ((processHttpRecord x rec).by_message_type MsgType.HELLO).responses
      = (x.by_message_type MsgType.HELLO).responses := by
  show ((update_message_type_stats (update_packet_stats x rec.size false)
      (classify_http rec.reqVal rec.respVal).1 rec.size
      (! (classify_http rec.reqVal rec.respVal).2)).by_message_type
        MsgType.HELLO).responses = _
  by_cases ht : lookupMsgType (classify_http rec.reqVal rec.respVal).1 = MsgType.HELLO
  · have hb : (classify_http rec.reqVal rec.respVal).2 = false := by
      cases hcb : (classify_http rec.reqVal rec.respVal).2
      · rfl
      · exact absurd ⟨ht, hcb⟩ h
    rw [hb, Bool.not_false, responses_update_mts]
    rw [update_packet_stats_by]
  · rw [by_mts_noteq _ _ _ _ _ fun he => ht he.symm, update_packet_stats_by]

lemma processHttp_hello_requests_le (x : Results) (rec : HttpRec) :
    (x.by_message_type MsgType.HELLO).requests
      ≤ ((processHttpRecord x rec).by_message_type MsgType.HELLO).requests := by
  show (x.by_message_type MsgType.HELLO).requests
      ≤ ((update_message_type_stats (update_packet_stats x rec.size false)
        (classify_http rec.reqVal rec.respVal).1 rec.size
        (! (classify_http rec.reqVal rec.respVal).2)).by_message_type
          MsgType.HELLO).requests
  have h1 := requests_update_mts_le (update_packet_stats x rec.size false)
    (classify_http rec.reqVal rec.respVal).1 rec.size
    (! (classify_http rec.reqVal rec.respVal).2) MsgType.HELLO
  rw [update_packet_stats_by] at h1
  exact h1

/-- C9 (amended): every UDP record is folded into the `HELLO` bucket as a
request, with no inspection of ports or payload; consequently, for any
capture in which no HTTP frame classifies as a `HELLO` response (possible
only through an `X-Message-Type: HELLO` response header), the `HELLO`
bucket's response count is 0 and its unresponded percentage is exactly
100 whenever at least one UDP packet was captured. -/
theorem C9_udp_hello_bucket :
    (∀ (x : Results) (s : Nat),
      ((processUdpRecord x s).by_message_type MsgType.HELLO).requests
        = (x.by_message_type MsgType.HELLO).requests + 1 ∧
      ((processUdpRecord x s).by_message_type MsgType.HELLO).responses
        = (x.by_message_type MsgType.HELLO).responses) ∧
    (∀ (udp : List Nat) (http : List HttpRec),
      (∀ rec ∈ http,
        ¬(lookupMsgType (classify_http rec.reqVal rec.respVal).1 = MsgType.HELLO ∧
          (classify_http rec.reqVal rec.respVal).2 = true)) →
      udp ≠ [] →
      ((analyze_core udp http).by_message_type MsgType.HELLO).responses = 0 ∧
      ((analyze_core udp http).by_message_type MsgType.HELLO).percentage_unresponded
        = 100) := by
  refine ⟨fun x s => ⟨processUdp_hello_requests x s, processUdp_hello_responses x s⟩, ?_⟩
  intro udp http hh hne
  obtain ⟨s, rest, rfl⟩ := List.exists_cons_of_ne_nil hne
  set P : Results → Prop := fun x =>
    (x.by_message_type MsgType.HELLO).responses = 0 ∧
    1 ≤ (x.by_message_type MsgType.HELLO).requests with hP
  have hstart : P (processUdpRecord initialize_results s) := by
    rw [hP]
    refine ⟨?_, ?_⟩
    · rw [processUdp_hello_responses]
      rfl
    · rw [processUdp_hello_requests]
      omega
  have hu : P ((s :: rest).foldl processUdpRecord initialize_results) := by
    rw [List.foldl_cons]
    refine foldl_preserve P rest ?_ _ hstart
    intro x b _ hx
    rw [hP]
    refine ⟨?_, ?_⟩
    · rw [processUdp_hello_responses]
      exact hx.1
    · rw [processUdp_hello_requests]
      omega
  have hfold : P (http.foldl processHttpRecord
      ((s :: rest).foldl processUdpRecord initialize_results)) := by
    refine foldl_preserve P http ?_ _ hu
    intro x rec hmem hx
    rw [hP]
    refine ⟨?_, ?_⟩
    · rw [processHttp_hello_responses x rec (hh rec hmem)]
      exact hx.1
    · exact le_trans hx.2 (processHttp_hello_requests_le x rec)
  rw [analyze_core]
  set R := http.foldl processHttpRecord
    ((s :: rest).foldl processUdpRecord initialize_results) with hRdef
  obtain ⟨-, -, hreq, hresp⟩ := calc_by_fields R MsgType.HELLO
  have hqpos : 0 < (R.by_message_type MsgType.HELLO).requests := hfold.2
  have hrzero : (R.by_message_type MsgType.HELLO).responses = 0 := hfold.1
  constructor
  · rw [hresp, hrzero]
  · rw [pct_calc, if_pos hqpos, hrzero]
    have hcast : ((R.by_message_type MsgType.HELLO).requests : ℚ) ≠ 0 := by
      exact_mod_cast Nat.pos_iff_ne_zero.mp hqpos
    rw [Nat.cast_zero, sub_zero, div_self hcast, one_mul]

/-- Witness for C9 (amended) at a concrete input. -/
theorem C9_udp_hello_bucket_witness :
    ((analyze_core [10] []).by_message_type MsgType.HELLO).responses = 0 ∧
    ((analyze_core [10] []).by_message_type MsgType.HELLO).percentage_unresponded = 100 :=
  C9_udp_hello_bucket.2 [10] [] (by simp) (by decide)

/-- C9 counterexample: the HTTP path can put responses into the `HELLO`
bucket — a capture with one UDP packet and one HTTP response frame whose
header reads `X-Message-Type: HELLO` yields a `HELLO` bucket with one
response and an unresponded percentage of 0, refuting "responses is
always 0" and "percentage is 100 whenever a UDP packet was captured". -/
theorem C9_counterexample :
    ((analyze_core [10] [⟨20, "", "X-Message-Type: HELLO"⟩]).by_message_type
      MsgType.HELLO).responses = 1 ∧
    ((analyze_core [10] [⟨20, "", "X-Message-Type: HELLO"⟩]).by_message_type
      MsgType.HELLO).percentage_unresponded = 0 := by
  constructor
  · decide
  · rw [analyze_core, pct_calc,
      (by decide : ((([⟨20, "", "X-Message-Type: HELLO"⟩] : List HttpRec).foldl
          processHttpRecord ([10].foldl processUdpRecord
            initialize_results)).by_message_type MsgType.HELLO).requests = 1),
      (by decide : ((([⟨20, "", "X-Message-Type: HELLO"⟩] : List HttpRec).foldl
          processHttpRecord ([10].foldl processUdpRecord
            initialize_results)).by_message_type MsgType.HELLO).responses = 1)]
    norm_num

/-- C10: a `/state` response that parses and has the `all_deltas` key but
with an empty array makes `fetch_state` return `(None, None, [])` — the
very triple returned for a JSON parse error and for a missing-key error —
so the sampling loop writes no CSV row for that node while its (empty)
set still occupies its slot in the round's set list. -/
theorem C10_empty_all_deltas :
    fetch_state (StateResponse.ok []) = (none, none, []) ∧
    fetch_state StateResponse.parseError = (none, none, []) ∧
    fetch_state StateResponse.missingKey = (none, none, []) ∧
    processNode (StateResponse.ok []) = (∅, false) ∧
    roundDeltaSets [StateResponse.ok [], StateResponse.ok [⟨⟨1, 2⟩, ⟨"d", 5, 1⟩⟩]]
      = [∅, {"1,2"}] :=
  ⟨rfl, rfl, rfl, rfl, rfl⟩

end DronesCRDT
